import Mathlib

/-!
# FixMyCondo — verification of the complaint-SLA lifecycle and booking rules

Shallow embedding of the core domain logic of the FixMyCondo repository.

Conventions used throughout:
* Timestamps are integers counting **minutes** since the Unix epoch
  (the JavaScript sources work in milliseconds; every quantity the claims
  touch is a whole number of minutes, so minute granularity is faithful
  and `1 hour = 60` model units).
* The backend engine (FastAPI service) is not part of the source tree;
  operations owned by it are modelled from the specification text and are
  marked `Modelled from the spec:` in their doc comments.
* The mobile client screens (`src/mobile/app/...`) are embedded directly
  from their TypeScript source.
-/

/-- Complaint status enumeration (spec §3; `STATUS_COLORS` keys in the
complaints list screen). -/
inductive ComplaintStatus
  | submitted
  | reviewing
  | assigned
  | in_progress
  | pending_parts
  | pending_vendor
  | completed
  | closed
  | reopened
  | cancelled
deriving DecidableEq, Repr

/-- Complaint priority enumeration (spec §3). -/
inductive Priority
  | low
  | medium
  | high
  | critical
deriving DecidableEq, Repr

/-- All ten complaint statuses. -/
def allComplaintStatuses : List ComplaintStatus :=
  [.submitted, .reviewing, .assigned, .in_progress, .pending_parts,
   .pending_vendor, .completed, .closed, .reopened, .cancelled]

/-- The string each status carries in the client code (statuses travel as
strings in the TypeScript sources). -/
def statusStr : ComplaintStatus → String
  | .submitted => "submitted"
  | .reviewing => "reviewing"
  | .assigned => "assigned"
  | .in_progress => "in_progress"
  | .pending_parts => "pending_parts"
  | .pending_vendor => "pending_vendor"
  | .completed => "completed"
  | .closed => "closed"
  | .reopened => "reopened"
  | .cancelled => "cancelled"

/-- Terminal-resolved statuses (spec §3: breach suppression set
`{completed, closed, cancelled}`). -/
def terminalStatuses : List ComplaintStatus := [.completed, .closed, .cancelled]

/-- Modelled from the spec: `sla_hours` lookup by priority, §3
(`critical=4, high=24, medium=48, low=72`).  The backend that owns this
lookup is not in the source tree. -/
def slaHoursFor : Priority → Nat
  | .critical => 4
  | .high => 24
  | .medium => 48
  | .low => 72

/-- Complaint record, restricted to the fields the claims touch (spec §3). -/
structure Complaint where
  status : ComplaintStatus
  priority : Priority
  created_at : Int
  sla_hours : Nat
  sla_deadline : Int
deriving DecidableEq, Repr

/-- Modelled from the spec: the effect of `createComplaint` (§4.1) —
`status = submitted`, `created_at = now`, `sla_hours = lookup(priority)`,
`sla_deadline = created_at + sla_hours` (hours, i.e. `60 *` in minutes).
The backend that owns creation is not in the source tree. -/
def createComplaint (priority : Priority) (now : Int) : Complaint :=
  { status := .submitted
    priority := priority
    created_at := now
    sla_hours := slaHoursFor priority
    sla_deadline := now + 60 * (slaHoursFor priority : Int) }

/-- Modelled from the spec: `isBreached(complaint, now)` (§4.1) —
`status ∉ {completed, closed, cancelled} AND now > sla_deadline`.
The backend that owns breach computation is not in the source tree. -/
def isBreached (c : Complaint) (now : Int) : Bool :=
  !(terminalStatuses.contains c.status) && decide (c.sla_deadline < now)

/-- Modelled from the spec: the transition graph of §4.1, as the list of
allowed target statuses for each source status. -/
def allowedTargets : ComplaintStatus → List ComplaintStatus
  | .submitted => [.reviewing, .cancelled]
  | .reviewing => [.assigned, .cancelled]
  | .assigned => [.in_progress, .cancelled]
  | .in_progress => [.pending_parts, .pending_vendor, .completed, .cancelled]
  | .pending_parts => [.in_progress, .cancelled]
  | .pending_vendor => [.in_progress, .cancelled]
  | .completed => [.closed, .reopened]
  | .closed => [.reopened]
  | .reopened => [.reviewing, .in_progress]
  | .cancelled => []

/-- Errors of the complaint lifecycle engine (spec §7). -/
inductive TransitionError
  | invalidTransition
  | emptyMessage
deriving DecidableEq, Repr

/-- Timeline entry appended by a successful transition (spec §3). -/
structure ComplaintUpdate where
  status : Option ComplaintStatus
  message : String
  created_at : Int
deriving DecidableEq, Repr

/-- Modelled from the spec: `transition(complaint, newStatus, message)`
(§4.1).  A source→target pair outside the graph fails with
`InvalidTransitionError` (P3 states this unconditionally, so the graph
check comes first); a transition with an empty message fails; otherwise
the complaint moves to `newStatus` and one timeline update is appended.
The backend that owns transitions is not in the source tree. -/
def transition (c : Complaint) (newStatus : ComplaintStatus) (message : String)
    (now : Int) : Except TransitionError (Complaint × ComplaintUpdate) :=
  if !(allowedTargets c.status).contains newStatus then
    .error .invalidTransition
  else if message.isEmpty then
    .error .emptyMessage
  else
    .ok ({ c with status := newStatus },
         { status := some newStatus, message := message, created_at := now })

/-- The complaint as seen after a transition attempt: unchanged when the
attempt failed, updated when it succeeded. -/
def applyTransition (c : Complaint) (newStatus : ComplaintStatus)
    (message : String) (now : Int) : Complaint :=
  match transition c newStatus message now with
  | .ok (c2, _) => c2
  | .error _ => c

/-- Facility-booking status enumeration (spec §3). -/
inductive BookingStatus
  | pending
  | confirmed
  | cancelled
  | completed
deriving DecidableEq, Repr

/-- Facility record, restricted to the fields the claims touch (spec §3). -/
structure Facility where
  id : Nat
  booking_fee : ℚ
  min_booking_hours : Nat
  max_booking_hours : Nat
deriving DecidableEq, Repr

/-- Existing facility booking, restricted to the fields the conflict rule
reads (spec §3). -/
structure FacilityBooking where
  facility_id : Nat
  start_time : Int
  end_time : Int
  status : BookingStatus
deriving DecidableEq, Repr

/-- Half-open interval overlap from spec §4.2: `[a,b)` and `[c,d)` overlap
iff `a < d AND c < b`. -/
def intervalsOverlap (a b c d : Int) : Bool :=
  decide (a < d) && decide (c < b)

/-- A booking blocks a new request on facility `fid` when it is on the
same facility and its status is `pending` or `confirmed` (spec §4.2). -/
def blocksFacility (fid : Nat) (b : FacilityBooking) : Bool :=
  b.facility_id == fid && (b.status == .pending || b.status == .confirmed)

/-- Booking validation errors (spec §4.2 / §7). -/
inductive BookingError
  | slotUnavailable
  | durationOutOfRange
  | pastDate
deriving DecidableEq, Repr

/-- Successful booking validation result (spec §4.2). -/
structure BookingResult where
  total_fee : ℚ
deriving DecidableEq, Repr

/-- Modelled from the spec: `validateBooking(facility, startTime, endTime,
existingBookings)` (§4.2).  Preconditions: duration in hours within
`[min_booking_hours, max_booking_hours]` (a non-positive duration also
violates the range, covering `startTime < endTime`), `startTime` strictly
in the future; then the half-open conflict rule against `pending` or
`confirmed` bookings on the same facility; on success
`total_fee = booking_fee * durationHours`.  The backend that owns booking
validation is not in the source tree. -/
def validateBooking (facility : Facility) (startTime endTime now : Int)
    (existingBookings : List FacilityBooking) : Except BookingError BookingResult :=
  if endTime - startTime < (facility.min_booking_hours : Int) * 60 ∨
      (facility.max_booking_hours : Int) * 60 < endTime - startTime then
    .error .durationOutOfRange
  else if startTime ≤ now then
    .error .pastDate
  else if existingBookings.any (fun b =>
      blocksFacility facility.id b &&
        intervalsOverlap b.start_time b.end_time startTime endTime) then
    .error .slotUnavailable
  else
    .ok { total_fee := facility.booking_fee * ((endTime - startTime : Int) : ℚ) / 60 }

/-! ## Mobile client embeddings

Everything below is translated from the TypeScript screens under
`src/mobile/app/`.  JavaScript strings are modelled as Lean `String`s;
`String.prototype.trim` is modelled by stripping leading and trailing
whitespace characters from the character list. -/

/-- JavaScript `String.prototype.trim` on the character-list view of a
string (leading and trailing whitespace removed). -/
def jsTrim (s : String) : String :=
  ⟨((s.data.dropWhile Char.isWhitespace).reverse.dropWhile Char.isWhitespace).reverse⟩

/-- One entry of the `CATEGORIES` array of
`src/mobile/app/complaint/create.tsx` and of the `STATUS_OPTIONS` array of
`src/mobile/app/technician/job/[id].tsx`. -/
structure SelectOption where
  value : String
  label : String
  icon : String
deriving DecidableEq, Repr

/-- `CATEGORIES` from `src/mobile/app/complaint/create.tsx` (lines 19–29):
the category choices offered at complaint creation. -/
def CATEGORIES : List SelectOption :=
  [ { value := "plumbing", label := "Plumbing", icon := "water" },
    { value := "electrical", label := "Electrical", icon := "flash" },
    { value := "lift", label := "Lift/Elevator", icon := "swap-vertical" },
    { value := "security", label := "Security", icon := "shield" },
    { value := "common_area", label := "Common Area", icon := "business" },
    { value := "cleaning", label := "Cleaning", icon := "sparkles" },
    { value := "pest", label := "Pest Control", icon := "bug" },
    { value := "parking", label := "Parking", icon := "car" },
    { value := "other", label := "Other", icon := "help-circle" } ]

/-- The category values selectable at complaint creation. -/
def categoryValues : List String := CATEGORIES.map (·.value)

/-- One entry of the `PRIORITIES` array of
`src/mobile/app/complaint/create.tsx`. -/
structure PriorityOption where
  value : String
  label : String
  color : String
  description : String
deriving DecidableEq, Repr

/-- `PRIORITIES` from `src/mobile/app/complaint/create.tsx` (lines 31–36):
priority choices with their UI copy. -/
def PRIORITIES : List PriorityOption :=
  [ { value := "low", label := "Low", color := "#28a745",
      description := "Can wait 3 days" },
    { value := "medium", label := "Medium", color := "#ffc107",
      description := "Within 48 hours" },
    { value := "high", label := "High", color := "#fd7e14",
      description := "Within 24 hours" },
    { value := "critical", label := "Critical", color := "#dc3545",
      description := "Emergency - 4 hours" } ]

/-- The UI description shown for a priority value on the creation screen. -/
def priorityDescription (v : String) : Option String :=
  (PRIORITIES.find? (fun p => p.value == v)).map (·.description)

/-- The form state of `CreateComplaintScreen`
(`src/mobile/app/complaint/create.tsx`, lines 39–45); `priority` starts as
`"medium"` and the other fields start empty. -/
structure ComplaintForm where
  title : String
  description : String
  category : String
  priority : String
deriving DecidableEq, Repr

/-- The initial form state of `CreateComplaintScreen`. -/
def complaintFormInitial : ComplaintForm :=
  { title := "", description := "", category := "", priority := "medium" }

/-- The `title` check of `validate` in `create.tsx` (lines 59–65):
required (non-blank), length at least 5, length at most 100. -/
def titleError (f : ComplaintForm) : Option String :=
  if jsTrim f.title = "" then some "Title is required"
  else if f.title.length < 5 then some "Title must be at least 5 characters"
  else if 100 < f.title.length then some "Title must be less than 100 characters"
  else none

/-- The `category` check of `validate` in `create.tsx` (lines 67–69):
a category must be selected (JavaScript falsy check on the string). -/
def categoryError (f : ComplaintForm) : Option String :=
  if f.category = "" then some "Please select a category" else none

/-- The `description` check of `validate` in `create.tsx` (lines 71–73):
when present (non-empty) it must be at most 500 characters. -/
def descriptionError (f : ComplaintForm) : Option String :=
  if f.description ≠ "" ∧ 500 < f.description.length then
    some "Description must be less than 500 characters"
  else none

/-- `validate` of `CreateComplaintScreen` (lines 56–77): true iff no field
error was recorded. -/
def validateComplaintForm (f : ComplaintForm) : Bool :=
  (titleError f).isNone && (categoryError f).isNone && (descriptionError f).isNone

/-- The request body `handleSubmit` sends to `POST /complaints`
(`create.tsx`, lines 84–90). -/
structure ComplaintRequest where
  title : String
  description : Option String
  category : String
  priority : String
deriving DecidableEq, Repr

/-- `handleSubmit` of `CreateComplaintScreen` (lines 79–105): submits the
trimmed title, the trimmed description (or nothing when it trims to
empty), the category and the priority — but only when `validate` passes. -/
def handleSubmitComplaint (f : ComplaintForm) : Option ComplaintRequest :=
  if validateComplaintForm f then
    some { title := jsTrim f.title
           description := if jsTrim f.description = "" then none
                          else some (jsTrim f.description)
           category := f.category
           priority := f.priority }
  else none

/-- `CATEGORY_ICONS` from the complaints list screen
(`src/mobile/app/(tabs)/bookings.tsx`, lines 285–297), as key/value
pairs. -/
def CATEGORY_ICONS : List (String × String) :=
  [ ("plumbing", "water"), ("electrical", "flash"), ("lift", "swap-vertical"),
    ("security", "shield"), ("common_area", "business"), ("cleaning", "sparkles"),
    ("renovation", "hammer"), ("structural", "construct"), ("pest", "bug"),
    ("parking", "car"), ("other", "help-circle") ]

/-- The category enumeration of the data model (spec §3): the eleven recognized
category values. -/
def dataModelCategories : List String :=
  [ "plumbing", "electrical", "lift", "security", "common_area", "cleaning",
    "renovation", "structural", "pest", "parking", "other" ]

/-- `CLOSED_STATUSES` from `ComplaintsScreen`
(`src/mobile/app/(tabs)/bookings.tsx`, line 319). -/
def CLOSED_STATUSES : List String := ["completed", "closed", "cancelled"]

/-- `OPEN_STATUSES` from `ComplaintsScreen` (line 322). -/
def OPEN_STATUSES : List String :=
  [ "submitted", "reviewing", "assigned", "in_progress", "pending_parts",
    "pending_vendor", "reopened" ]

/-- A complaint row as the complaints list screen reads it (status travels
as a string). -/
structure ComplaintItem where
  id : Nat
  title : String
  category : String
  status : String
  is_sla_breached : Bool
deriving DecidableEq, Repr

/-- The client-side filtering of `loadComplaints` in `ComplaintsScreen`
(lines 331–336): the `open` filter keeps `OPEN_STATUSES`, the `closed`
filter keeps `CLOSED_STATUSES`, anything else keeps all items. -/
def loadComplaintsFilter (filter : String) (items : List ComplaintItem) :
    List ComplaintItem :=
  if filter = "open" then items.filter (fun c => OPEN_STATUSES.contains c.status)
  else if filter = "closed" then
    items.filter (fun c => CLOSED_STATUSES.contains c.status)
  else items

/-- The banner record returned by `getSlaInfo` in the complaint detail
screen (`src/mobile/app/complaint/[id].tsx`). -/
structure SlaInfo where
  text : String
  color : String
  icon : String
deriving DecidableEq, Repr

/-- `getSlaInfo` from `src/mobile/app/complaint/[id].tsx` (lines 81–99):
`hoursLeft = Math.floor((deadline - now) / 1h)`; breached flag takes
precedence; then thresholds `hoursLeft ≤ 4` (red), `hoursLeft ≤ 24`
(orange), otherwise green. -/
def getSlaInfo (sla_deadline : Option Int) (is_sla_breached : Bool)
    (now : Int) : Option SlaInfo :=
  match sla_deadline with
  | none => none
  | some deadline =>
    let hoursLeft := Int.fdiv (deadline - now) 60
    if is_sla_breached then
      some { text := "SLA Breached", color := "#dc3545", icon := "alert-circle" }
    else if hoursLeft ≤ 4 then
      some { text := toString hoursLeft ++ "h left", color := "#dc3545", icon := "timer" }
    else if hoursLeft ≤ 24 then
      some { text := toString hoursLeft ++ "h left", color := "#fd7e14", icon := "timer" }
    else
      some { text := toString hoursLeft ++ "h left", color := "#28a745", icon := "timer" }

/-- The record returned by `getSlaUrgency` in the technician jobs screen
(`src/mobile/app/technician/jobs.tsx`). -/
structure SlaUrgency where
  text : String
  color : String
deriving DecidableEq, Repr

/-- `getSlaUrgency` from `src/mobile/app/technician/jobs.tsx`
(lines 79–88): breached gives `OVERDUE`; otherwise
`hoursLeft = differenceInHours(deadline, now)` (truncating division) with
thresholds `≤ 4` (red), `≤ 12` (orange), `≤ 24` (yellow), otherwise
green. -/
def getSlaUrgency (deadline : Option Int) (breached : Bool) (now : Int) :
    Option SlaUrgency :=
  if breached then some { text := "OVERDUE", color := "#dc3545" }
  else
    match deadline with
    | none => none
    | some d =>
      let hoursLeft := Int.tdiv (d - now) 60
      if hoursLeft ≤ 4 then
        some { text := toString hoursLeft ++ "h left", color := "#dc3545" }
      else if hoursLeft ≤ 12 then
        some { text := toString hoursLeft ++ "h left", color := "#fd7e14" }
      else if hoursLeft ≤ 24 then
        some { text := toString hoursLeft ++ "h left", color := "#ffc107" }
      else
        some { text := toString hoursLeft ++ "h left", color := "#28a745" }

/-- The four urgency bands named by the specification (§4.1,
`urgencyBand`). -/
inductive UrgencyBand
  | breached
  | critical
  | warning
  | ok
deriving DecidableEq, Repr

/-- The banding exactly as the specification words it (claim-side
definition, for comparison with the screens): breached if the deadline is
already past; critical if at most 4 hours remain; warning if at most 24
hours remain; ok otherwise — hours remaining taken as the whole hours
left until the deadline, as both screens compute it. -/
def specUrgencyBand (sla_deadline now : Int) : UrgencyBand :=
  if sla_deadline < now then .breached
  else if Int.fdiv (sla_deadline - now) 60 ≤ 4 then .critical
  else if Int.fdiv (sla_deadline - now) 60 ≤ 24 then .warning
  else .ok

/-- The color `getSlaInfo` assigns to each urgency band. -/
def infoColorOfBand : UrgencyBand → String
  | .breached => "#dc3545"
  | .critical => "#dc3545"
  | .warning => "#fd7e14"
  | .ok => "#28a745"

/-- The icon `getSlaInfo` assigns to each urgency band. -/
def infoIconOfBand : UrgencyBand → String
  | .breached => "alert-circle"
  | _ => "timer"

/-- The five bands the technician jobs screen actually distinguishes. -/
inductive FineUrgencyBand
  | overdue
  | upTo4
  | upTo12
  | upTo24
  | beyond24
deriving DecidableEq, Repr

/-- The banding `getSlaUrgency` thresholds on. -/
def fineUrgencyBand (sla_deadline now : Int) : FineUrgencyBand :=
  if sla_deadline < now then .overdue
  else if Int.tdiv (sla_deadline - now) 60 ≤ 4 then .upTo4
  else if Int.tdiv (sla_deadline - now) 60 ≤ 12 then .upTo12
  else if Int.tdiv (sla_deadline - now) 60 ≤ 24 then .upTo24
  else .beyond24

/-- The color `getSlaUrgency` assigns to each of its five bands. -/
def urgencyColorOfFineBand : FineUrgencyBand → String
  | .overdue => "#dc3545"
  | .upTo4 => "#dc3545"
  | .upTo12 => "#fd7e14"
  | .upTo24 => "#ffc107"
  | .beyond24 => "#28a745"

/-- How the five-band refinement of the technician jobs screen coarsens to
the four bands of the specification. -/
def coarsenFineBand : FineUrgencyBand → UrgencyBand
  | .overdue => .breached
  | .upTo4 => .critical
  | .upTo12 => .warning
  | .upTo24 => .warning
  | .beyond24 => .ok

/-- `STATUS_OPTIONS` from the technician job detail screen
(`src/mobile/app/technician/job/[id].tsx`, lines 22–27): the status
targets the screen offers, independent of the current status of the job. -/
def STATUS_OPTIONS : List SelectOption :=
  [ { value := "in_progress", label := "In Progress", icon := "construct" },
    { value := "pending_parts", label := "Pending Parts", icon := "cube" },
    { value := "pending_vendor", label := "Need Vendor", icon := "business" },
    { value := "completed", label := "Completed", icon := "checkmark-circle" } ]

/-- The request body `handleUpdateStatus` sends
(`src/mobile/app/technician/job/[id].tsx`, lines 69–72). -/
structure StatusUpdateRequest where
  status : String
  message : String
deriving DecidableEq, Repr

/-- `handleUpdateStatus` from the technician job detail screen
(lines 61–95): requires non-blank notes, then sends the selected status
and trimmed notes to the update endpoints — with no check of the selected
status against the current one. -/
def handleUpdateStatus (notes selectedStatus : String) :
    Option StatusUpdateRequest :=
  if jsTrim notes = "" then none
  else some { status := selectedStatus, message := jsTrim notes }

/-- One time slot of the booking creation screen: its display label and
the two hours `handleSubmit` recovers from it — JavaScript splits the
label on the dash separator, then on the colon, and applies `Number` to
each side (`src/mobile/app/dashboard/index.tsx`, lines 384–386); the
parses of the seven literals of `timeSlots` are evaluated here. -/
structure TimeSlot where
  label : String
  startHour : Nat
  endHour : Nat
deriving DecidableEq, Repr

/-- `timeSlots` from the booking creation screen
(`src/mobile/app/dashboard/index.tsx`, lines 349–357), each with the
hours `handleSubmit` parses out of its label. -/
def timeSlots : List TimeSlot :=
  [ { label := "08:00 - 10:00", startHour := 8, endHour := 10 },
    { label := "10:00 - 12:00", startHour := 10, endHour := 12 },
    { label := "12:00 - 14:00", startHour := 12, endHour := 14 },
    { label := "14:00 - 16:00", startHour := 14, endHour := 16 },
    { label := "16:00 - 18:00", startHour := 16, endHour := 18 },
    { label := "18:00 - 20:00", startHour := 18, endHour := 20 },
    { label := "20:00 - 22:00", startHour := 20, endHour := 22 } ]

/-- date-fns `addDays` at minute granularity: add whole days. -/
def jsAddDays (t : Int) (n : Nat) : Int := t + 1440 * (n : Int)

/-- date-fns `setMinutes(setHours(t, h), 0)` at minute granularity: keep
the calendar day of `t`, set the time of day to `h:00`. -/
def jsSetHoursZeroMinutes (t : Int) (h : Nat) : Int :=
  t - t % 1440 + 60 * (h : Int)

/-- The request body `handleSubmit` sends to `POST /facilities/bookings`
(`dashboard/index.tsx`, lines 394–401), restricted to the fields the
booking validator reads. -/
structure ScreenBookingRequest where
  facility_id : Nat
  start_time : Int
  end_time : Int
deriving DecidableEq, Repr

/-- The booking request the creation screen constructs for the selected
facility, date (`availableDates[dayIndex] = addDays(now, dayIndex + 1)`,
lines 345–346) and time slot (`handleSubmit`, lines 384–401). -/
def screenBookingRequest (now : Int) (facilityId : Nat) (dayIndex : Nat)
    (slot : TimeSlot) : ScreenBookingRequest :=
  { facility_id := facilityId
    start_time := jsSetHoursZeroMinutes (jsAddDays now (dayIndex + 1)) slot.startHour
    end_time := jsSetHoursZeroMinutes (jsAddDays now (dayIndex + 1)) slot.endHour }

/-- The total fee the booking creation screen displays
(`dashboard/index.tsx`, line 601): `booking_fee * 2`. -/
def displayedTotalFee (f : Facility) : ℚ := f.booking_fee * 2

/-! ## Claim theorems -/

/-- C1: `isBreached(complaint, now)` is true iff the status is outside
`{completed, closed, cancelled}` and `now` is strictly after
`sla_deadline`; for a terminal status it is false regardless of `now`;
and a critical complaint created at `2025-01-01T00:00:00Z`
(= 28928160 minutes since the epoch) still `submitted` is breached at
`2025-01-01T05:00:00Z`, its deadline being `2025-01-01T04:00:00Z`. -/
theorem claim_C1 :
    (∀ (c : Complaint) (now : Int),
        isBreached c now = true ↔
          (c.status ∉ terminalStatuses ∧ c.sla_deadline < now)) ∧
    (∀ (c : Complaint) (now : Int),
        c.status ∈ terminalStatuses → isBreached c now = false) ∧
    ((createComplaint .critical 28928160).sla_deadline = 28928160 + 240 ∧
      (createComplaint .critical 28928160).status = .submitted ∧
      isBreached (createComplaint .critical 28928160) (28928160 + 300) = true) := by
  refine ⟨?_, ?_, by decide⟩
  · intro c now
    obtain ⟨st, p, ca, sh, sd⟩ := c
    cases st <;>
      simp [isBreached, terminalStatuses]
  · intro c now h
    obtain ⟨st, p, ca, sh, sd⟩ := c
    cases st <;> simp_all [isBreached, terminalStatuses]

/-- C1 witness: a completed complaint far past its deadline is not
breached at time 1000. -/
theorem claim_C1_witness :
    isBreached { status := .completed, priority := .critical, created_at := 0,
                 sla_hours := 4, sla_deadline := 240 } 1000 = false :=
  claim_C1.2.1
    { status := .completed, priority := .critical, created_at := 0,
      sla_hours := 4, sla_deadline := 240 } 1000 (by decide)

/-- C4: `sla_hours` is `critical=4, high=24, medium=48, low=72`;
`createComplaint` sets `sla_hours` from the priority and
`sla_deadline = created_at + sla_hours` (hours = 60 model minutes); and
the priority descriptions on the creation screen carry exactly those
numbers (the "3 days" of `low` being `72 / 24`). -/
theorem claim_C4 :
    (slaHoursFor .critical = 4 ∧ slaHoursFor .high = 24 ∧
      slaHoursFor .medium = 48 ∧ slaHoursFor .low = 72) ∧
    (∀ (p : Priority) (now : Int),
        (createComplaint p now).sla_hours = slaHoursFor p ∧
        (createComplaint p now).created_at = now ∧
        (createComplaint p now).sla_deadline = now + 60 * (slaHoursFor p : Int)) ∧
    (priorityDescription "critical" =
        some ("Emergency - " ++ toString (slaHoursFor .critical) ++ " hours") ∧
      priorityDescription "high" =
        some ("Within " ++ toString (slaHoursFor .high) ++ " hours") ∧
      priorityDescription "medium" =
        some ("Within " ++ toString (slaHoursFor .medium) ++ " hours") ∧
      priorityDescription "low" =
        some ("Can wait " ++ toString (slaHoursFor .low / 24) ++ " days") ∧
      slaHoursFor .low = 3 * 24) := by
  refine ⟨by decide, ?_, by decide⟩
  intro p now
  exact ⟨rfl, rfl, rfl⟩

/-- C8 counterexample: `renovation` is one of the eleven data-model
category values but is not selectable on the complaint creation screen. -/
theorem claim_C8_counterexample :
    "renovation" ∈ dataModelCategories ∧ "renovation" ∉ categoryValues := by
  decide

/-- C8 (amended): the selectable categories are a proper subset of the
eleven of the data model — every selectable value is recognized, but
`renovation` and `structural` are missing and they are the only missing
ones; the category-icon table of the complaints list does cover all eleven. -/
theorem claim_C8 :
    (∀ v ∈ categoryValues, v ∈ dataModelCategories) ∧
    "renovation" ∉ categoryValues ∧ "structural" ∉ categoryValues ∧
    (∀ v ∈ dataModelCategories,
        v ∈ categoryValues ∨ v = "renovation" ∨ v = "structural") ∧
    CATEGORY_ICONS.map Prod.fst = dataModelCategories := by
  decide

/-- C8 witness: instantiating the subset direction at `plumbing`. -/
theorem claim_C8_witness : "plumbing" ∈ dataModelCategories :=
  claim_C8.1 "plumbing" (by decide)

/-- C3: a transition to a target not listed for the current status in the
§4.1 graph fails with `InvalidTransitionError` and leaves the complaint
unchanged; `submitted → in_progress` in particular fails; yet the
technician job screen offers exactly `in_progress`, `pending_parts`,
`pending_vendor` and `completed` whatever the current status, and
`handleUpdateStatus` sends any selected status once the notes are
non-blank, with no graph check. -/
theorem claim_C3 :
    (∀ (c : Complaint) (newStatus : ComplaintStatus) (msg : String) (now : Int),
        newStatus ∉ allowedTargets c.status →
        transition c newStatus msg now = .error .invalidTransition ∧
        applyTransition c newStatus msg now = c) ∧
    (∀ (c : Complaint) (msg : String) (now : Int),
        c.status = .submitted →
        transition c .in_progress msg now = .error .invalidTransition) ∧
    (STATUS_OPTIONS.map (fun o => o.value) =
        ["in_progress", "pending_parts", "pending_vendor", "completed"]) ∧
    (∀ (notes selectedStatus : String),
        jsTrim notes ≠ "" →
        handleUpdateStatus notes selectedStatus =
          some { status := selectedStatus, message := jsTrim notes }) := by
  have key : ∀ (c : Complaint) (newStatus : ComplaintStatus) (msg : String) (now : Int),
      newStatus ∉ allowedTargets c.status →
      transition c newStatus msg now = .error .invalidTransition := by
    intro c newStatus msg now h
    have hb : (allowedTargets c.status).contains newStatus = false := by
      simpa using h
    simp only [transition]
    rw [hb]
    rfl
  refine ⟨?_, ?_, by decide, ?_⟩
  · intro c newStatus msg now h
    refine ⟨key c newStatus msg now h, ?_⟩
    simp [applyTransition, key c newStatus msg now h]
  · intro c msg now h
    refine key c .in_progress msg now ?_
    rw [h]
    decide
  · intro notes selectedStatus h
    simp [handleUpdateStatus, h]

/-- C3 witness: from `submitted`, selecting `in_progress` (offered by the
technician screen) is rejected by the transition graph and the complaint
keeps its status. -/
theorem claim_C3_witness :
    transition { status := .submitted, priority := .medium, created_at := 0,
                 sla_hours := 48, sla_deadline := 2880 } .in_progress "start" 10 =
        .error .invalidTransition ∧
    applyTransition { status := .submitted, priority := .medium, created_at := 0,
                      sla_hours := 48, sla_deadline := 2880 } .in_progress "start" 10 =
      { status := .submitted, priority := .medium, created_at := 0,
        sla_hours := 48, sla_deadline := 2880 } :=
  claim_C3.1
    { status := .submitted, priority := .medium, created_at := 0,
      sla_hours := 48, sla_deadline := 2880 } .in_progress "start" 10 (by decide)

/-- C10: the complaints list sets `CLOSED_STATUSES` and `OPEN_STATUSES` are
disjoint and together cover the ten status strings; `CLOSED_STATUSES` is
exactly the terminal-resolved set; and each loaded complaint whose status
is one of the ten appears under exactly one of the `open` and `closed`
filters. -/
theorem claim_C10 :
    (∀ s ∈ CLOSED_STATUSES, s ∉ OPEN_STATUSES) ∧
    (∀ s ∈ allComplaintStatuses.map statusStr,
        s ∈ CLOSED_STATUSES ∨ s ∈ OPEN_STATUSES) ∧
    CLOSED_STATUSES = terminalStatuses.map statusStr ∧
    (∀ (items : List ComplaintItem) (c : ComplaintItem),
        c ∈ items →
        c.status ∈ allComplaintStatuses.map statusStr →
        (c ∈ loadComplaintsFilter "open" items ∧
            c ∉ loadComplaintsFilter "closed" items) ∨
          (c ∉ loadComplaintsFilter "open" items ∧
            c ∈ loadComplaintsFilter "closed" items)) := by
  refine ⟨by decide, by decide, by decide, ?_⟩
  intro items c hc hstatus
  have hcases :
      (c.status ∈ OPEN_STATUSES ∧ c.status ∉ CLOSED_STATUSES) ∨
      (c.status ∉ OPEN_STATUSES ∧ c.status ∈ CLOSED_STATUSES) := by
    have hall : ∀ s ∈ allComplaintStatuses.map statusStr,
        (s ∈ OPEN_STATUSES ∧ s ∉ CLOSED_STATUSES) ∨
        (s ∉ OPEN_STATUSES ∧ s ∈ CLOSED_STATUSES) := by
      decide
    exact hall c.status hstatus
  have hopen : loadComplaintsFilter "open" items =
      items.filter (fun x => OPEN_STATUSES.contains x.status) := by
    simp [loadComplaintsFilter]
  have hclosed : loadComplaintsFilter "closed" items =
      items.filter (fun x => CLOSED_STATUSES.contains x.status) := by
    simp [loadComplaintsFilter]
  rcases hcases with ⟨h1, h2⟩ | ⟨h1, h2⟩
  · left
    constructor
    · rw [hopen, List.mem_filter]
      refine ⟨hc, ?_⟩
      simpa using h1
    · rw [hclosed, List.mem_filter]
      rintro ⟨-, hcon⟩
      simp at hcon
      exact h2 hcon
  · right
    constructor
    · rw [hopen, List.mem_filter]
      rintro ⟨-, hcon⟩
      simp at hcon
      exact h1 hcon
    · rw [hclosed, List.mem_filter]
      refine ⟨hc, ?_⟩
      simpa using h2

/-- C10 witness: a submitted complaint in a one-element list shows under
the `open` filter and not under the `closed` filter. -/
theorem claim_C10_witness :
    ({ id := 1, title := "Leaky tap", category := "plumbing",
       status := "submitted", is_sla_breached := false } : ComplaintItem) ∈
        loadComplaintsFilter "open"
          [{ id := 1, title := "Leaky tap", category := "plumbing",
             status := "submitted", is_sla_breached := false }] ∧
      ({ id := 1, title := "Leaky tap", category := "plumbing",
         status := "submitted", is_sla_breached := false } : ComplaintItem) ∉
        loadComplaintsFilter "closed"
          [{ id := 1, title := "Leaky tap", category := "plumbing",
             status := "submitted", is_sla_breached := false }] := by
  have h := claim_C10.2.2.2
    [{ id := 1, title := "Leaky tap", category := "plumbing",
       status := "submitted", is_sla_breached := false }]
    { id := 1, title := "Leaky tap", category := "plumbing",
      status := "submitted", is_sla_breached := false }
    (by decide) (by decide)
  rcases h with h | h
  · exact h
  · exact absurd h.2 (by decide)

/-- C2: under the preconditions (duration in range, start in the future),
`validateBooking` reports `SlotUnavailableError` exactly when some
`pending`/`confirmed` booking on the same facility overlaps the request
under the half-open rule; a `[12:00,14:00)` request right after an
existing `[10:00,12:00)` confirmed booking is accepted; and accepting a
validated booking preserves pairwise disjointness of the
`pending`/`confirmed` intervals on the facility. -/
theorem claim_C2 :
    (∀ (fac : Facility) (s e now : Int) (bs : List FacilityBooking),
        (fac.min_booking_hours : Int) * 60 ≤ e - s →
        e - s ≤ (fac.max_booking_hours : Int) * 60 →
        now < s →
        (validateBooking fac s e now bs = .error .slotUnavailable ↔
          ∃ b ∈ bs, blocksFacility fac.id b = true ∧
            intervalsOverlap b.start_time b.end_time s e = true)) ∧
    (validateBooking { id := 1, booking_fee := 5, min_booking_hours := 2,
                       max_booking_hours := 8 } 720 840 0
        [{ facility_id := 1, start_time := 600, end_time := 720,
           status := .confirmed }] = .ok { total_fee := 10 }) ∧
    (∀ (fac : Facility) (s e now : Int) (bs : List FacilityBooking)
        (r : BookingResult),
        validateBooking fac s e now bs = .ok r →
        bs.Pairwise (fun b1 b2 =>
          blocksFacility fac.id b1 = true → blocksFacility fac.id b2 = true →
          intervalsOverlap b1.start_time b1.end_time b2.start_time b2.end_time
            = false) →
        (({ facility_id := fac.id, start_time := s, end_time := e,
            status := .pending } : FacilityBooking) :: bs).Pairwise
          (fun b1 b2 =>
            blocksFacility fac.id b1 = true → blocksFacility fac.id b2 = true →
            intervalsOverlap b1.start_time b1.end_time b2.start_time b2.end_time
              = false)) := by
  refine ⟨?_, ?_, ?_⟩
  · intro fac s e now bs h1 h2 h3
    simp only [validateBooking]
    rw [if_neg (by omega), if_neg (by omega)]
    by_cases hany : bs.any (fun b =>
        blocksFacility fac.id b && intervalsOverlap b.start_time b.end_time s e)
    · rw [if_pos hany]
      simp only [List.any_eq_true, Bool.and_eq_true] at hany
      simpa using hany
    · rw [if_neg hany]
      simp only [List.any_eq_true, Bool.and_eq_true] at hany
      simpa using hany
  · unfold validateBooking
    norm_num [blocksFacility, intervalsOverlap]
  · intro fac s e now bs r hok hpw
    have hnoconf : ∀ b ∈ bs, ¬(blocksFacility fac.id b = true ∧
        intervalsOverlap b.start_time b.end_time s e = true) := by
      simp only [validateBooking] at hok
      split at hok
      · cases hok
      · split at hok
        · cases hok
        · split at hok
          · cases hok
          · rename_i hany
            simpa [List.any_eq_true, Bool.and_eq_true] using hany
    refine List.Pairwise.cons ?_ hpw
    intro b hb hblkNew hblkB
    have hno := hnoconf b hb
    have : intervalsOverlap b.start_time b.end_time s e = false := by
      by_cases hov : intervalsOverlap b.start_time b.end_time s e = true
      · exact absurd ⟨hblkB, hov⟩ hno
      · simpa using hov
    simp only [intervalsOverlap, Bool.and_eq_true] at this ⊢
    rcases Bool.and_eq_false_iff.mp this with h | h <;>
      simp [Bool.and_eq_false_iff, h]

/-- C2 witness: Scenario D instantiated — an existing confirmed
`[09:00,11:00)` booking makes a `[10:00,12:00)` request on the same
facility fail with `SlotUnavailableError`, via the overlap
characterization. -/
theorem claim_C2_witness :
    validateBooking { id := 1, booking_fee := 5, min_booking_hours := 2,
                      max_booking_hours := 8 } 600 720 0
        [{ facility_id := 1, start_time := 540, end_time := 660,
           status := .confirmed }] = .error .slotUnavailable := by
  have h := claim_C2.1
    { id := 1, booking_fee := 5, min_booking_hours := 2, max_booking_hours := 8 }
    600 720 0
    [{ facility_id := 1, start_time := 540, end_time := 660,
       status := .confirmed }]
    (by decide) (by decide) (by decide)
  refine h.mpr ?_
  refine ⟨{ facility_id := 1, start_time := 540, end_time := 660,
            status := .confirmed }, by decide, by decide, by decide⟩

/-- C9: the `total_fee` of a validated booking is the per-hour fee of the facility
times the duration in hours; every slot the creation screen offers lasts
exactly two hours; hence for any screen-built request that validates, the
computed fee equals the displayed `booking_fee * 2` of the screen. -/
theorem claim_C9 :
    (∀ (fac : Facility) (s e now : Int) (bs : List FacilityBooking)
        (r : BookingResult),
        validateBooking fac s e now bs = .ok r →
        r.total_fee = fac.booking_fee * (((e - s : Int) : ℚ) / 60)) ∧
    (∀ slot ∈ timeSlots, ∀ (now : Int) (facilityId dayIndex : Nat),
        (screenBookingRequest now facilityId dayIndex slot).end_time -
          (screenBookingRequest now facilityId dayIndex slot).start_time = 120) ∧
    (∀ (fac : Facility) (now : Int) (bs : List FacilityBooking)
        (facilityId dayIndex : Nat) (slot : TimeSlot) (r : BookingResult),
        slot ∈ timeSlots →
        validateBooking fac
          (screenBookingRequest now facilityId dayIndex slot).start_time
          (screenBookingRequest now facilityId dayIndex slot).end_time
          now bs = .ok r →
        r.total_fee = displayedTotalFee fac) := by
  have feeOfOk : ∀ (fac : Facility) (s e now : Int) (bs : List FacilityBooking)
      (r : BookingResult),
      validateBooking fac s e now bs = .ok r →
      r.total_fee = fac.booking_fee * (((e - s : Int) : ℚ) / 60) := by
    intro fac s e now bs r hok
    simp only [validateBooking] at hok
    split at hok
    · cases hok
    · split at hok
      · cases hok
      · split at hok
        · cases hok
        · cases hok
          simp [mul_div_assoc]
  have slotDuration : ∀ slot ∈ timeSlots, ∀ (now : Int) (facilityId dayIndex : Nat),
      (screenBookingRequest now facilityId dayIndex slot).end_time -
        (screenBookingRequest now facilityId dayIndex slot).start_time = 120 := by
    intro slot hslot now facilityId dayIndex
    fin_cases hslot <;>
      · simp only [screenBookingRequest, jsSetHoursZeroMinutes, jsAddDays]
        omega
  refine ⟨feeOfOk, slotDuration, ?_⟩
  intro fac now bs facilityId dayIndex slot r hslot hok
  have hdur := slotDuration slot hslot now facilityId dayIndex
  have hfee := feeOfOk fac _ _ now bs r hok
  rw [hfee, hdur]
  unfold displayedTotalFee
  norm_num

/-- C9 witness: the fee rule instantiated at the back-to-back acceptance
scenario — a validated two-hour booking at RM 5 per hour costs RM 10. -/
theorem claim_C9_witness :
    ({ total_fee := 10 } : BookingResult).total_fee =
      (5 : ℚ) * (((840 - 720 : Int) : ℚ) / 60) :=
  claim_C9.1
    { id := 1, booking_fee := 5, min_booking_hours := 2, max_booking_hours := 8 }
    720 840 0
    [{ facility_id := 1, start_time := 600, end_time := 720,
       status := .confirmed }]
    { total_fee := 10 } (by norm_num [validateBooking, blocksFacility, intervalsOverlap])

/-- C7 counterexample: a title of five spaces has length in `[5,100]`, the
description is short, the category is recognized — yet the creation
screen validation fails (the required-title check trims first). -/
theorem claim_C7_counterexample :
    validateComplaintForm { title := "     ", description := "",
                            category := "plumbing", priority := "medium" } = false ∧
    5 ≤ ("     " : String).length ∧ ("     " : String).length ≤ 100 ∧
    ("" : String).length ≤ 500 ∧ "plumbing" ∈ dataModelCategories := by
  refine ⟨by rfl, by decide, by decide, by decide, by decide⟩

/-- C7 (amended): creation fails with a validation error iff the title is
blank after trimming, or the title length is outside `[5,100]`, or the
description is present and longer than 500, or no category is selected —
which, over the categories the screen can hold (a selectable value or the
initial empty string), is exactly "the category is not a recognized enum
value"; on success the request carries the trimmed title and description
and the priority, which starts as `medium`. -/
theorem claim_C7 :
    (∀ f : ComplaintForm,
        validateComplaintForm f = false ↔
          (jsTrim f.title = "" ∨ f.title.length < 5 ∨ 100 < f.title.length ∨
            f.category = "" ∨
            (f.description ≠ "" ∧ 500 < f.description.length))) ∧
    (∀ f : ComplaintForm,
        validateComplaintForm f = true →
        handleSubmitComplaint f =
          some { title := jsTrim f.title
                 description := if jsTrim f.description = "" then none
                                else some (jsTrim f.description)
                 category := f.category
                 priority := f.priority }) ∧
    complaintFormInitial.priority = "medium" ∧
    (∀ f : ComplaintForm,
        f.category ∈ categoryValues ∨ f.category = "" →
        ((categoryError f).isSome ↔ f.category ∉ dataModelCategories)) := by
  refine ⟨?_, ?_, rfl, ?_⟩
  · intro f
    simp only [validateComplaintForm, titleError, categoryError, descriptionError]
    split_ifs <;> simp_all
  · intro f h
    simp [handleSubmitComplaint, h]
  · intro f hf
    have hsel : ∀ x ∈ categoryValues, x ∈ dataModelCategories ∧ ¬x = "" := by
      decide
    have hempty : ("" : String) ∉ dataModelCategories := by decide
    rcases hf with hmem | hcat
    · obtain ⟨hin, hne⟩ := hsel f.category hmem
      simp [categoryError, hne, hin]
    · simp [categoryError, hcat, hempty]

/-- C7 witness: a well-formed plumbing complaint passes validation and is
submitted with trimmed fields and default priority. -/
theorem claim_C7_witness :
    handleSubmitComplaint { title := " Water leaking in bathroom ",
                            description := "", category := "plumbing",
                            priority := "medium" } =
      some { title := jsTrim " Water leaking in bathroom "
             description := if jsTrim "" = "" then none else some (jsTrim "")
             category := "plumbing"
             priority := "medium" } :=
  claim_C7.2.1
    { title := " Water leaking in bathroom ", description := "",
      category := "plumbing", priority := "medium" } (by rfl)

/-- C6 counterexample: the booking screen builds a fixed two-hour request
without reading the booking-hour bounds of the facility, so for a facility
with `min_booking_hours = 4` the screen-built `08:00–10:00` request for
tomorrow (now = 0) violates the duration precondition and fails with
`DurationOutOfRangeError`. -/
theorem claim_C6_counterexample :
    ({ label := "08:00 - 10:00", startHour := 8, endHour := 10 } : TimeSlot) ∈
        timeSlots ∧
    screenBookingRequest 0 1 0
        { label := "08:00 - 10:00", startHour := 8, endHour := 10 } =
      { facility_id := 1, start_time := 1920, end_time := 2040 } ∧
    validateBooking { id := 1, booking_fee := 0, min_booking_hours := 4,
                      max_booking_hours := 8 } 1920 2040 0 [] =
      .error .durationOutOfRange := by
  refine ⟨by decide, by decide, by rfl⟩

/-- C6 (amended): every screen-built request has `start_time < end_time`,
a start strictly in the future, and a duration of exactly two hours; the
screen never reads `min_booking_hours`/`max_booking_hours`, so the
duration precondition holds iff `min_booking_hours ≤ 2 ≤
max_booking_hours`, and otherwise the request fails with
`DurationOutOfRangeError`. -/
theorem claim_C6 :
    ∀ (now : Int) (facilityId dayIndex : Nat) (slot : TimeSlot)
      (fac : Facility) (bs : List FacilityBooking),
      slot ∈ timeSlots →
      ((screenBookingRequest now facilityId dayIndex slot).start_time <
          (screenBookingRequest now facilityId dayIndex slot).end_time ∧
        now < (screenBookingRequest now facilityId dayIndex slot).start_time ∧
        (screenBookingRequest now facilityId dayIndex slot).end_time -
          (screenBookingRequest now facilityId dayIndex slot).start_time = 120) ∧
      (¬(fac.min_booking_hours ≤ 2 ∧ 2 ≤ fac.max_booking_hours) →
        validateBooking fac
          (screenBookingRequest now facilityId dayIndex slot).start_time
          (screenBookingRequest now facilityId dayIndex slot).end_time
          now bs = .error .durationOutOfRange) := by
  intro now facilityId dayIndex slot fac bs hslot
  have hdur : (screenBookingRequest now facilityId dayIndex slot).end_time -
      (screenBookingRequest now facilityId dayIndex slot).start_time = 120 := by
    fin_cases hslot <;>
      · simp only [screenBookingRequest, jsSetHoursZeroMinutes, jsAddDays]
        omega
  have hfut : now < (screenBookingRequest now facilityId dayIndex slot).start_time := by
    fin_cases hslot <;>
      · simp only [screenBookingRequest, jsSetHoursZeroMinutes, jsAddDays]
        omega
  refine ⟨⟨by omega, hfut, hdur⟩, ?_⟩
  intro hrange
  have hcond : (screenBookingRequest now facilityId dayIndex slot).end_time -
        (screenBookingRequest now facilityId dayIndex slot).start_time <
        (fac.min_booking_hours : Int) * 60 ∨
      (fac.max_booking_hours : Int) * 60 <
        (screenBookingRequest now facilityId dayIndex slot).end_time -
          (screenBookingRequest now facilityId dayIndex slot).start_time := by
    rw [hdur]
    omega
  simp only [validateBooking]
  rw [if_pos hcond]

/-- C6 witness: the `10:00 - 12:00` slot for tomorrow, against a facility
requiring at least four hours, is rejected for its duration. -/
theorem claim_C6_witness :
    validateBooking { id := 1, booking_fee := 0, min_booking_hours := 4,
                      max_booking_hours := 8 } 2040 2160 0 [] =
      .error .durationOutOfRange :=
  (claim_C6 0 1 0 { label := "10:00 - 12:00", startHour := 10, endHour := 12 }
      { id := 1, booking_fee := 0, min_booking_hours := 4, max_booking_hours := 8 }
      [] (by decide)).2 (by decide)

/-- C5 counterexample: 10 hours left and 20 hours left both fall in the
claimed `warning` band (and the resident screen colors them alike), yet
the technician jobs screen colors them differently (`#fd7e14` vs
`#ffc107`) — so the two screens do not compute the same banding. -/
theorem claim_C5_counterexample :
    specUrgencyBand 600 0 = .warning ∧ specUrgencyBand 1200 0 = .warning ∧
    (getSlaInfo (some 600) false 0).map SlaInfo.color =
      (getSlaInfo (some 1200) false 0).map SlaInfo.color ∧
    (getSlaUrgency (some 600) false 0).map SlaUrgency.color = some "#fd7e14" ∧
    (getSlaUrgency (some 1200) false 0).map SlaUrgency.color = some "#ffc107" ∧
    (getSlaUrgency (some 600) false 0).map SlaUrgency.color ≠
      (getSlaUrgency (some 1200) false 0).map SlaUrgency.color := by
  decide

/-- C5 (amended): with the breach flag reflecting deadline passage, the
resident detail screen (`getSlaInfo`) does color and icon by the claimed
four-band thresholding (breached / ≤4h / ≤24h / ok); the technician jobs
screen (`getSlaUrgency`) colors by a strictly finer five-band
thresholding (breached / ≤4h / ≤12h / ≤24h / ok) that coarsens to the
claimed banding but subdivides the warning band at 12 hours. -/
theorem claim_C5 :
    (∀ (d now : Int),
        (getSlaInfo (some d) (decide (d < now)) now).map SlaInfo.color =
          some (infoColorOfBand (specUrgencyBand d now)) ∧
        (getSlaInfo (some d) (decide (d < now)) now).map SlaInfo.icon =
          some (infoIconOfBand (specUrgencyBand d now))) ∧
    (∀ (d now : Int),
        (getSlaUrgency (some d) (decide (d < now)) now).map SlaUrgency.color =
          some (urgencyColorOfFineBand (fineUrgencyBand d now))) ∧
    (∀ (d now : Int),
        specUrgencyBand d now = coarsenFineBand (fineUrgencyBand d now)) := by
  refine ⟨fun d now => ?_, fun d now => ?_, fun d now => ?_⟩
  · by_cases h : d < now
    · simp [getSlaInfo, specUrgencyBand, h, infoColorOfBand, infoIconOfBand]
    · simp only [getSlaInfo, specUrgencyBand, h, decide_False, Bool.false_eq_true,
        if_false, if_neg h]
      split_ifs <;>
        simp [infoColorOfBand, infoIconOfBand]
  · by_cases h : d < now
    · simp [getSlaUrgency, fineUrgencyBand, h, urgencyColorOfFineBand]
    · simp only [getSlaUrgency, fineUrgencyBand, h, decide_False, Bool.false_eq_true,
        if_false, if_neg h]
      split_ifs <;>
        simp [urgencyColorOfFineBand]
  · by_cases h : d < now
    · simp [specUrgencyBand, fineUrgencyBand, coarsenFineBand, h]
    · have h0 : (0 : Int) ≤ d - now := by omega
      have heq : Int.fdiv (d - now) 60 = Int.tdiv (d - now) 60 :=
        Int.fdiv_eq_tdiv h0 (by norm_num)
      simp only [specUrgencyBand, fineUrgencyBand, if_neg h, heq]
      split_ifs <;> first | rfl | omega
